import Mathlib

/-!
Verification of the coop session/PTY supervisor against its specification.

This file is a shallow embedding, in Lean 4, of the parts of the coop
daemon that the checked properties talk about:

* the framed IPC codecs (src/ipc/codec.rs, src/ipc/messages.rs);
* the session registry and its operations: create_session, attach,
  spawn_shell, kill_pty, get_logs, restart_pty, spawn_exit_watcher
  (src/src/daemon/session.rs);
* the scrollback append-and-trim step of the PTY reader
  (spawn_pty_reader in src/src/daemon/session.rs);
* the decode-error path of handle_client (src/src/daemon/server.rs).

Bytes are modelled as `Nat` (values < 256 where it matters), file
descriptors as `Int` (the code stores them in an `AtomicI32` with -1
meaning closed), and the identities of shared heap objects (the
broadcast channel and the scrollback `Arc`) as `Nat` tokens, so that
"the same object is reused" is expressible as token equality.
External collaborators (the namespace builder, the filesystem, the
resolved Coopfile, process liveness) are passed in as explicit
parameters, mirroring the values the Rust code obtains from them.
-/

namespace Coop

/-- SCROLLBACK_MAX from session.rs: max scrollback buffer size (256 KiB). -/
def SCROLLBACK_MAX : Nat := 256 * 1024

/-- MAX_MESSAGE_SIZE from ipc/messages.rs: maximum message size (1 MiB). -/
def MAX_MESSAGE_SIZE : Nat := 1048576

/-- Error code constant from ipc/messages.rs. -/
def ERR_SESSION_NOT_FOUND : String := "SESSION_NOT_FOUND"

/-- Error code constant from ipc/messages.rs. -/
def ERR_SESSION_EXISTS : String := "SESSION_EXISTS"

/-- Error code constant from ipc/messages.rs. -/
def ERR_PTY_NOT_FOUND : String := "PTY_NOT_FOUND"

/-- Error code constant from ipc/messages.rs. -/
def ERR_MESSAGE_TOO_LARGE : String := "MESSAGE_TOO_LARGE"

/-- Error code constant used by create_session in session.rs. -/
def ERR_ROOTFS_NOT_FOUND : String := "ROOTFS_NOT_FOUND"

/-- Error code constant used by create_session in session.rs. -/
def ERR_NAMESPACE_ERROR : String := "NAMESPACE_ERROR"

/-- Decidable equality for Except results, so that concrete runs of the
fallible operations can be checked by evaluation. -/
instance {ε α : Type} [DecidableEq ε] [DecidableEq α] : DecidableEq (Except ε α)
  | .ok x, .ok y =>
    match decEq x y with
    | isTrue h => isTrue (h ▸ rfl)
    | isFalse h => isFalse (fun c => h (Except.ok.inj c))
  | .error x, .error y =>
    match decEq x y with
    | isTrue h => isTrue (h ▸ rfl)
    | isFalse h => isFalse (fun c => h (Except.error.inj c))
  | .ok _, .error _ => isFalse (fun c => Except.noConfusion c)
  | .error _, .ok _ => isFalse (fun c => Except.noConfusion c)

/-- PtyRole from ipc/messages.rs. -/
inductive PtyRole where
  | agent
  | shell
deriving DecidableEq, Inhabited

/-- PtyState from session.rs.  `masterFd` is the current value of the
`Arc<AtomicI32>` master-FD cell (-1 = closed).  `outputTx` is the identity
token of the broadcast channel (`None` mirrors `output_tx: Option<...>`);
`scrollback` pairs the identity token of the shared scrollback `Arc` with
its current byte contents. -/
structure PtyState where
  id : Nat
  role : PtyRole
  command : String
  pid : Option Nat
  masterFd : Int
  outputTx : Option Nat
  scrollback : Option (Nat × List Nat)
  autoRestart : Bool
deriving DecidableEq, Inhabited

/-- Session from session.rs (the fields the modelled operations read or
write). -/
structure Session where
  name : String
  workspace : String
  namespacePid : Nat
  created : Nat
  ptys : List PtyState
  localClients : Nat
  webClients : Nat
  defaultShell : String
  sandboxHome : String
  sandboxUser : String
  userEnv : List (String × String)
  sandboxWorkspace : String
  restartDelayMs : Nat
  nsUserFd : Int
  nsMntFd : Int
  nsUtsFd : Int
  nsNetFd : Option Int
  nsRootFd : Int
deriving DecidableEq, Inhabited

/-- ResponseData from ipc/messages.rs (fields used by the modelled
operations; `logData` holds the base64 string of the logs payload). -/
structure ResponseData where
  session : Option String := none
  pid : Option Nat := none
  pty : Option Nat := none
  logData : Option String := none
deriving DecidableEq, Inhabited

/-- Response envelope from ipc/messages.rs. -/
structure Response where
  ok : Bool
  error : Option String := none
  message : Option String := none
  data : ResponseData := {}
deriving DecidableEq, Inhabited

/-- Response::ok() -/
def Response.mkOk : Response := { ok := true }

/-- Response::ok_with(data) -/
def Response.okWith (data : ResponseData) : Response := { ok := true, data := data }

/-- Response::err(code, message) -/
def Response.err (code message : String) : Response :=
  { ok := false, error := some code, message := some message }

/-- Response::err_with(code, message, data) -/
def Response.errWith (code message : String) (data : ResponseData) : Response :=
  { ok := false, error := some code, message := some message, data := data }

/-! ## Framed IPC codecs (src/ipc/codec.rs)

A buffer of wire bytes is a `List Nat`.  `MessageCodec::decode` consumes a
mutable `BytesMut`; the model returns the decoded payload together with the
bytes remaining in the buffer.  `Ok(None)` (not enough bytes yet) is
`.ok none`; a protocol error is `.error msg` with the exact io::Error
message string the code constructs. -/

/-- The four big-endian bytes written for a u32 length by `put_u32`. -/
def be32 (n : Nat) : List Nat :=
  [n / 16777216 % 256, n / 65536 % 256, n / 256 % 256, n % 256]

/-- `u32::from_be_bytes([b0,b1,b2,b3]) as usize`. -/
def from_be32 (b0 b1 b2 b3 : Nat) : Nat :=
  ((b0 * 256 + b1) * 256 + b2) * 256 + b3

/-- The io::Error message produced by MessageCodec::decode for an oversized
length prefix: format: Message too large: LEN bytes (max MAX). -/
def msgTooLarge (length : Nat) : String :=
  "Message too large: " ++ Nat.repr length ++ " bytes (max " ++
    Nat.repr MAX_MESSAGE_SIZE ++ ")"

/-- MessageCodec::encode (codec.rs lines 38-54). -/
def msg_encode (item : List Nat) : Except String (List Nat) :=
  if item.length > MAX_MESSAGE_SIZE then
    .error (msgTooLarge item.length)
  else
    .ok (be32 item.length ++ item)

/-- MessageCodec::decode (codec.rs lines 14-36).  On success the result is
the payload (`src.split_to(length)`) and the bytes left in `src`.  The
source condition `src.len() < 4 + length` is `rest.length < length` here
because the four prefix bytes have been pattern-matched off. -/
def msg_decode (src : List Nat) : Except String (Option (List Nat × List Nat)) :=
  match src with
  | b0 :: b1 :: b2 :: b3 :: rest =>
    let length := from_be32 b0 b1 b2 b3
    if length > MAX_MESSAGE_SIZE then
      .error (msgTooLarge length)
    else if rest.length < length then
      .ok none
    else
      .ok (some (rest.take length, rest.drop length))
  | _ => .ok none

/-- StreamCodec::encode (codec.rs lines 124-142): length prefix covers the
one-byte tag plus the payload. -/
def stream_encode (frameType : Nat) (payload : List Nat) : Except String (List Nat) :=
  let totalLen := 1 + payload.length
  if totalLen > MAX_MESSAGE_SIZE then
    .error "Message too large"
  else
    .ok (be32 totalLen ++ frameType :: payload)

/-- StreamCodec::decode (codec.rs lines 86-122).  Returns
(frame_type, payload, remaining buffer). -/
def stream_decode (src : List Nat) :
    Except String (Option (Nat × List Nat × List Nat)) :=
  match src with
  | b0 :: b1 :: b2 :: b3 :: rest =>
    let length := from_be32 b0 b1 b2 b3
    if length > MAX_MESSAGE_SIZE then
      .error "Message too large"
    else if length < 1 then
      .error "Stream frame must have at least 1 byte (type tag)"
    else if rest.length < length then
      .ok none
    else
      let frameType := rest.headD 0
      let rest1 := rest.drop 1
      .ok (some (frameType, rest1.take (length - 1), rest1.drop (length - 1)))
  | _ => .ok none

/-- Model of the command loop of handle_client (server.rs lines 180-190)
at the framing layer, for the case where `framed.next()` yields a decode
error: `let msg = msg.context("Read error")?;` propagates the error out of
handle_client, so the connection is dropped and no response envelope is
written to the client.  The result is (response sent, connection stays
open). -/
def handle_client_on_decode_error (_e : String) : Option String × Bool :=
  (none, false)

/-! ## The session registry (SessionManager in session.rs)

`SessionManager.sessions` is a `RwLock<HashMap<String, Session>>`; the
modelled operations each take the lock once and run to completion, so the
registry is an association list threaded through each operation. -/

/-- The registry: session name to Session, as held by SessionManager. -/
abbrev Registry := List (String × Session)

/-- sessions.contains_key(name) -/
def containsKey (reg : Registry) (name : String) : Bool :=
  reg.any (fun p => p.1 == name)

/-- sessions.get(name) -/
def lookupSession (reg : Registry) (name : String) : Option Session :=
  (reg.find? (fun p => p.1 == name)).map Prod.snd

/-- sessions.values().find(|s| s.workspace == workspace) -/
def findByWorkspace (reg : Registry) (workspace : String) : Option Session :=
  (reg.map Prod.snd).find? (fun s => s.workspace == workspace)

/-- sessions.insert(name, session) -/
def insertSession (reg : Registry) (name : String) (s : Session) : Registry :=
  reg ++ [(name, s)]

/-- Split a character list at every slash (the separator handling of
`Path::components`): consecutive separators yield empty components. -/
def splitOnSlash : List Char → List (List Char)
  | [] => [[]]
  | c :: rest =>
    let r := splitOnSlash rest
    if c = '/' then [] :: r
    else (c :: r.headD []) :: r.tail

/-- Model of Rust `Path::new(path).file_name().unwrap_or_default()` for the
workspace strings create_session receives: the final normal component of
the path.  Empty components and `.` components are dropped (as by
`Path::components`); a path ending in `..`, the root path and the empty
path have no file name, giving the empty string after
`unwrap_or_default`. -/
def fileName (path : String) : String :=
  let comps := (splitOnSlash path.toList).map String.mk
  let comps := comps.filter (fun c => !(c == "") && !(c == "."))
  match comps.getLast? with
  | none => ""
  | some c => if c == ".." then "" else c

/-- The session name create_session uses:
`name.unwrap_or_else(|| Path::new(&workspace).file_name()...)`. -/
def derivedName (name? : Option String) (workspace : String) : String :=
  name?.getD (fileName workspace)

/-- NsResult from sandbox/namespace.rs: what namespace::create_session
hands back on success. -/
structure NsResult where
  childPid : Nat
  ptyMasterFd : Int
  nsUserFd : Int
  nsMntFd : Int
  nsUtsFd : Int
  nsNetFd : Option Int
  nsRootFd : Int
deriving DecidableEq, Inhabited

/-- The fields of the resolved and env-expanded Coopfile that
create_session and restart_pty read (config/coopfile.rs accessors). -/
structure Coopfile where
  agentCommand : Option String
  shellCommand : String
  sandboxUser : String
  workspacePath : String
  env : List (String × String)
  autoRestart : Bool
  restartDelayMs : Nat
deriving DecidableEq, Inhabited

/-- SessionManager::create_session (session.rs lines 295-445).  External
outcomes are parameters: `rootfsExists` for `base_path.exists()`,
`nsResult` for `namespace::create_session` (`none` = failure), `now` for
the clock, and `freshTxId`/`freshSbId` for the identities of the broadcast
channel and scrollback allocated by `PtyState::new`.  Returns the response
and the updated registry. -/
def create_session (reg : Registry) (name? : Option String) (workspace : String)
    (cfg : Coopfile) (rootfsExists : Bool) (nsResult : Option NsResult)
    (now freshTxId freshSbId : Nat) : Response × Registry :=
  let name := derivedName name? workspace
  if containsKey reg name then
    (Response.errWith ERR_SESSION_EXISTS ("Session " ++ name ++ " already exists")
      { session := some name }, reg)
  else
    match findByWorkspace reg workspace with
    | some existing =>
      (Response.errWith ERR_SESSION_EXISTS
        ("Session " ++ existing.name ++ " already exists for this workspace")
        { session := some existing.name }, reg)
    | none =>
      if !rootfsExists then
        (Response.err ERR_ROOTFS_NOT_FOUND "Rootfs not found. Run coop init first.", reg)
      else
        match nsResult with
        | none => (Response.err ERR_NAMESPACE_ERROR "Failed to create namespace", reg)
        | some ns =>
          let agentCmd := cfg.agentCommand.getD "claude"
          let agentPty : PtyState :=
            { id := 0, role := .agent, command := agentCmd,
              pid := some ns.childPid, masterFd := ns.ptyMasterFd,
              outputTx := some freshTxId, scrollback := some (freshSbId, []),
              autoRestart := cfg.autoRestart }
          let session : Session :=
            { name := name, workspace := workspace, namespacePid := ns.childPid,
              created := now, ptys := [agentPty], localClients := 0, webClients := 0,
              defaultShell := cfg.shellCommand,
              sandboxHome := "/home/" ++ cfg.sandboxUser,
              sandboxUser := cfg.sandboxUser, userEnv := cfg.env,
              sandboxWorkspace := cfg.workspacePath,
              restartDelayMs := cfg.restartDelayMs,
              nsUserFd := ns.nsUserFd, nsMntFd := ns.nsMntFd,
              nsUtsFd := ns.nsUtsFd, nsNetFd := ns.nsNetFd,
              nsRootFd := ns.nsRootFd }
          (Response.okWith { session := some name, pid := some ns.childPid },
            insertSession reg name session)

/-- SessionManager::resolve_name (session.rs lines 1042-1052): a key that
exists is itself; otherwise a string containing a path separator matches
the session whose workspace equals it. -/
def resolve_name (reg : Registry) (nameOrPath : String) : Except String String :=
  if containsKey reg nameOrPath then
    .ok nameOrPath
  else if nameOrPath.contains '/' then
    match findByWorkspace reg nameOrPath with
    | some s => .ok s.name
    | none => .error ("Session " ++ nameOrPath ++ " not found")
  else
    .error ("Session " ++ nameOrPath ++ " not found")

/-- SessionManager::resolve_session (session.rs lines 1054-1061).  The
source indexes `sessions[&key]` after resolve_name; a missing key there
would be a panic, modelled as an error (it cannot happen when every
session is stored under its own name). -/
def resolve_session (reg : Registry) (nameOrPath : String) : Except String Session :=
  match resolve_name reg nameOrPath with
  | .error e => .error e
  | .ok key =>
    match lookupSession reg key with
    | some s => .ok s
    | none => .error "panic: resolved key missing from map"

/-- SessionManager::attach (session.rs lines 447-466).  The PTY check is
`pty as usize >= session.ptys.len()` - a position bound on the list, not a
lookup of the PTY id.  attach holds only the read lock and never mutates
the registry, so the model returns just the response. -/
def attach (reg : Registry) (sessionName : String) (pty : Nat) :
    Except String Response :=
  match resolve_session reg sessionName with
  | .error e => .error e
  | .ok session =>
    if session.ptys.length ≤ pty then
      .ok (Response.err ERR_PTY_NOT_FOUND
        ("PTY " ++ Nat.repr pty ++ " not found in session " ++ session.name))
    else
      .ok Response.mkOk

/-- Session::prune_dead_ptys (session.rs lines 124-130); `alive` is the
`is_pid_alive` oracle (kill(pid, 0)). -/
def prune_dead_ptys (alive : Nat → Bool) (ptys : List PtyState) : List PtyState :=
  ptys.filter (fun p =>
    match p.pid with
    | some pid => alive pid
    | none => true)

/-- The PTY id chosen by spawn_shell (session.rs line 498):
`session.ptys.iter().map(|p| p.id).max().map_or(1, |m| m + 1)`. -/
def next_pty_id (ptys : List PtyState) : Nat :=
  match (ptys.map (fun p => p.id)).max? with
  | none => 1
  | some m => m + 1

/-- SessionManager::spawn_shell (session.rs lines 468-549), acting on the
already-resolved Session.  `newPid`/`newFd` are the outcome of
`namespace::nsenter_shell`, and `freshTxId`/`freshSbId` the identities of
the channel and scrollback allocated by `PtyState::new`.  Returns the
updated session and the response. -/
def spawn_shell (alive : Nat → Bool) (s : Session) (command : Option String)
    (forceNew : Bool) (newPid : Nat) (newFd : Int) (freshTxId freshSbId : Nat) :
    Session × Response :=
  let cmd := command.getD s.defaultShell
  let s := { s with ptys := prune_dead_ptys alive s.ptys }
  let existing :=
    if forceNew then none
    else s.ptys.find? (fun p => p.role == PtyRole.shell && p.command == cmd)
  match existing with
  | some p => (s, Response.okWith { pty := some p.id })
  | none =>
    let ptyId := next_pty_id s.ptys
    let shellPty : PtyState :=
      { id := ptyId, role := .shell, command := cmd, pid := some newPid,
        masterFd := newFd, outputTx := some freshTxId,
        scrollback := some (freshSbId, []), autoRestart := false }
    ({ s with ptys := s.ptys ++ [shellPty] },
      Response.okWith { pty := some ptyId })

/-- SessionManager::kill_pty (session.rs lines 552-586), acting on the
already-resolved Session.  Finds the first PTY with the given id, SIGTERMs
its pid, swaps the master-FD cell to -1 closing the old value if it was
live, and removes the PTY from the list (`position` + `remove` removes the
first match, which is `List.eraseP`).  Returns the updated session, the
list of fds closed and the list of pids signalled. -/
def kill_pty (s : Session) (ptyId : Nat) :
    Except String (Session × List Int × List Nat) :=
  match s.ptys.find? (fun p => p.id == ptyId) with
  | none => .error ("PTY " ++ Nat.repr ptyId ++ " not found in session " ++ s.name)
  | some pty =>
    let sigs : List Nat := match pty.pid with | some pid => [pid] | none => []
    let closed : List Int := if pty.masterFd ≥ 0 then [pty.masterFd] else []
    .ok ({ s with ptys := s.ptys.eraseP (fun p => p.id == ptyId) }, closed, sigs)

/-- SessionManager::get_pty_pid (session.rs lines 982-988). -/
def get_pty_pid (s : Session) (ptyId : Nat) : Option Nat :=
  (s.ptys.find? (fun p => p.id == ptyId)).bind (fun p => p.pid)

/-- The banner broadcast by the exit watcher on the auto-restart path
(session.rs lines 1014-1017). -/
def restartBanner (delayMs : Nat) : String :=
  "\r\n\x1b[2m[process exited, restarting in " ++ Nat.repr delayMs ++
    "ms...]\x1b[0m\r\n"

/-- Model of the body of the task spawned by spawn_exit_watcher
(session.rs lines 994-1039), from the point where the reader EOF signal
has fired, acting on the session the watcher resolves by name.  If the
recorded pid no longer matches the expected pid the watcher does nothing.
If auto-restart is on it broadcasts the restart banner and (after the
delay and a pid re-check) invokes restart_pty, which is modelled
separately; the Bool result records that this path was taken.  Otherwise
it invokes kill_pty, ignoring any error.  Returns the updated session,
the banner chunks broadcast on the output channel, and the restart flag. -/
def watcher_on_exit (s : Session) (ptyId expectedPid : Nat)
    (autoRestart : Bool) (restartDelayMs : Nat) :
    Session × List String × Bool :=
  if get_pty_pid s ptyId ≠ some expectedPid then
    (s, [], false)
  else if autoRestart then
    (s, [restartBanner restartDelayMs], true)
  else
    match kill_pty s ptyId with
    | .ok (s2, _, _) => (s2, [], false)
    | .error _ => (s, [], false)

/-! ## PTY reader scrollback (spawn_pty_reader, session.rs lines 162-232) -/

/-- One append-and-trim step of the PTY reader (session.rs lines 209-218):
`sb.extend_from_slice(&buf[..n])`, then if the length exceeds
SCROLLBACK_MAX, `sb.drain(..excess)` drops the oldest bytes. -/
def scrollback_append (sb chunk : List Nat) : List Nat :=
  let sb2 := sb ++ chunk
  if sb2.length > SCROLLBACK_MAX then
    sb2.drop (sb2.length - SCROLLBACK_MAX)
  else
    sb2

/-- The scrollback contents after the reader has consumed a sequence of
chunks, starting from the empty buffer allocated by PtyState::new. -/
def scrollback_run (chunks : List (List Nat)) : List Nat :=
  chunks.foldl scrollback_append []

/-! ## Logs (get_logs, session.rs lines 717-767) -/

/-- The backward scan of get_logs (session.rs lines 745-755): walk `i`
from `data.len() - 1` down to 0 counting newline bytes; at the n-th
newline the suffix starts at `i + 1`; if the loop ends without reaching n
newlines, `start` keeps its initial value `data.len()`.  The first
argument of the recursion is the number of positions still to visit. -/
def tailStartGo (data : List Nat) (n : Nat) : Nat → Nat → Nat
  | 0, _ => data.length
  | j + 1, count =>
    if data.getD j 0 == 10 then
      if count + 1 ≥ n then j + 1
      else tailStartGo data n j (count + 1)
    else tailStartGo data n j count

/-- Start index of the last-n-lines suffix, as computed by get_logs. -/
def tailStart (data : List Nat) (n : Nat) : Nat :=
  tailStartGo data n data.length 0

/-- The bytes selected by get_logs from scrollback contents `data` for a
given `tail_lines` argument (session.rs lines 740-760). -/
def get_logs_bytes (data : List Nat) (tailLines : Option Nat) : List Nat :=
  match tailLines with
  | some n => if n == 0 then data else data.drop (tailStart data n)
  | none => data

/-- The standard base64 alphabet used by
`base64::engine::general_purpose::STANDARD`. -/
def b64Alphabet : List Char :=
  "ABCDEFGHIJKLMNOPQRSTUVWXYZabcdefghijklmnopqrstuvwxyz0123456789+/".toList

/-- The base64 digit for a 6-bit value. -/
def b64Char (n : Nat) : Char := b64Alphabet.getD n 'A'

/-- Standard base64 encoding with padding of a byte list, as produced by
`base64::engine::general_purpose::STANDARD.encode`. -/
def base64Encode : List Nat → String
  | [] => ""
  | [a] =>
    let a := a % 256
    String.mk [b64Char (a / 4), b64Char (a % 4 * 16)] ++ "=="
  | [a, b] =>
    let a := a % 256
    let b := b % 256
    String.mk [b64Char (a / 4), b64Char (a % 4 * 16 + b / 16),
      b64Char (b % 16 * 4)] ++ "="
  | a :: b :: c :: rest =>
    let a := a % 256
    let b := b % 256
    let c := c % 256
    String.mk [b64Char (a / 4), b64Char (a % 4 * 16 + b / 16),
      b64Char (b % 16 * 4 + c / 64), b64Char (c % 64)] ++ base64Encode rest

/-- SessionManager::get_logs (session.rs lines 717-767): resolve the
session, find the PTY by id, take the scrollback contents, select the
tail bytes and base64-encode them into the response.  The scrollback is
only read. -/
def get_logs (reg : Registry) (sessionName : String) (ptyId : Nat)
    (tailLines : Option Nat) : Except String Response :=
  match resolve_session reg sessionName with
  | .error e => .error e
  | .ok session =>
    match session.ptys.find? (fun p => p.id == ptyId) with
    | none =>
      .error ("PTY " ++ Nat.repr ptyId ++ " not found in session " ++ sessionName)
    | some pty =>
      match pty.scrollback with
      | none => .error ("PTY " ++ Nat.repr ptyId ++ " has no scrollback buffer")
      | some sb =>
        let bytes := get_logs_bytes sb.2 tailLines
        .ok (Response.okWith { logData := some (base64Encode bytes) })

/-! ## Restart (restart_pty, session.rs lines 772-915) -/

/-- In-place update of the first PTY with the given id, mirroring
`session.ptys.iter_mut().find(|p| p.id == pty_id)` followed by field
assignments. -/
def updateFirstById (l : List PtyState) (i : Nat) (f : PtyState → PtyState) :
    List PtyState :=
  match l with
  | [] => []
  | p :: rest => if p.id == i then f p :: rest else p :: updateFirstById rest i f

/-- SessionManager::restart_pty (session.rs lines 772-915), acting on the
already-resolved Session.  `cfg` is the freshly re-read Coopfile;
`newPid`/`newFd` the outcome of `namespace::nsenter_shell`.  The code
captures the first PTY with the matching id, refreshes the session-level
settings from the config, SIGTERMs the old pid, swaps the master-FD cell
to the new fd (closing the old value if it was live), starts a new reader
bound to the new fd that reuses the same broadcast channel and scrollback
objects, updates pid, command and auto_restart of the PTY in place, and,
for PTY 0, records the new pid as the session init pid.  Returns the
updated session, the response, the fds closed and the pids signalled. -/
def restart_pty (cfg : Coopfile) (s : Session) (ptyId newPid : Nat)
    (newFd : Int) : Except String (Session × Response × List Int × List Nat) :=
  match s.ptys.find? (fun p => p.id == ptyId) with
  | none => .error ("PTY " ++ Nat.repr ptyId ++ " not found in session " ++ s.name)
  | some pty =>
    match pty.outputTx with
    | none => .error ("PTY " ++ Nat.repr ptyId ++ " has no output channel")
    | some _ =>
      match pty.scrollback with
      | none => .error ("PTY " ++ Nat.repr ptyId ++ " has no scrollback buffer")
      | some _ =>
        let s1 := { s with defaultShell := cfg.shellCommand, userEnv := cfg.env,
                           restartDelayMs := cfg.restartDelayMs }
        let command := if ptyId == 0 then cfg.agentCommand.getD "claude"
                       else pty.command
        let autoRestart := if ptyId == 0 then cfg.autoRestart else pty.autoRestart
        let sigs : List Nat := match pty.pid with | some p => [p] | none => []
        let oldFd := pty.masterFd
        let closed : List Int := if oldFd ≥ 0 then [oldFd] else []
        let s2 :=
          { s1 with
            ptys := updateFirstById s1.ptys ptyId (fun p =>
              { p with pid := some newPid, command := command,
                       autoRestart := autoRestart, masterFd := newFd }),
            namespacePid := if ptyId == 0 then newPid else s1.namespacePid }
        .ok (s2, Response.okWith { pid := some newPid, pty := some ptyId },
          closed, sigs)

/-! ## Concrete states used by witnesses and counterexamples

All of these are reachable through the modelled operations: a session is
created, shells are spawned into it and PTYs are killed, exactly as a
daemon serving Create / Shell / SessionKill requests would do. -/

/-- Liveness oracle under which every process is alive. -/
def aliveAll : Nat → Bool := fun _ => true

/-- A concrete namespace::create_session outcome. -/
def testNs : NsResult :=
  { childPid := 100, ptyMasterFd := 5, nsUserFd := 10, nsMntFd := 11,
    nsUtsFd := 12, nsNetFd := none, nsRootFd := 13 }

/-- A concrete resolved Coopfile with auto-restart off. -/
def testCfg : Coopfile :=
  { agentCommand := some "claude", shellCommand := "/bin/bash",
    sandboxUser := "coop", workspacePath := "/workspace", env := [],
    autoRestart := false, restartDelayMs := 1000 }

/-- Registry after Create of session `s` at workspace `/w`. -/
def regA : Registry :=
  (create_session [] (some "s") "/w" testCfg true (some testNs) 0 1 2).2

/-- The session `s` just created: one agent PTY, id 0, pid 100, fd 5. -/
def sessA : Session := (lookupSession regA "s").getD default

/-- sessA after a forced Shell spawn: shell PTY id 1 (pid 101, fd 6). -/
def c3s1 : Session := (spawn_shell aliveAll sessA (some "sh") true 101 6 20 21).1

/-- c3s1 after another forced Shell spawn: shell PTY id 2 (pid 102, fd 7). -/
def c3s2 : Session := (spawn_shell aliveAll c3s1 (some "sh") true 102 7 22 23).1

/-- c3s2 after Kill-PTY of id 2: PTY ids present are 0 and 1. -/
def c3s3 : Session := { c3s2 with ptys := c3s2.ptys.eraseP (fun p => p.id == 2) }

/-- c3s2 after Kill-PTY of id 1: PTY ids present are 0 and 2. -/
def c2sess : Session := { c3s2 with ptys := c3s2.ptys.eraseP (fun p => p.id == 1) }

/-- Registry holding c2sess under its name. -/
def c2reg : Registry := [("s", c2sess)]

/-- sessA after its PTY reader consumed the two-byte chunk `hi` (bytes
104 105, no newline): the scrollback holds those bytes. -/
def c9sess : Session :=
  { sessA with
    ptys := [{ (sessA.ptys.getD 0 default) with
      scrollback := some (2, scrollback_append [] [104, 105]) }] }

/-- Registry holding c9sess under its name. -/
def c9reg : Registry := [("s", c9sess)]

/-! ## Helper lemmas -/

/-- One reader step keeps the scrollback within SCROLLBACK_MAX. -/
theorem scrollback_append_length_le (sb chunk : List Nat)
    (h : sb.length ≤ SCROLLBACK_MAX) :
    (scrollback_append sb chunk).length ≤ SCROLLBACK_MAX := by
  simp only [scrollback_append]
  split
  · simp only [List.length_drop]
    omega
  · omega

/-- One reader step keeps the scrollback a suffix of the accumulated
stream. -/
theorem scrollback_append_suffix (sb chunk acc : List Nat) (h : sb <:+ acc) :
    scrollback_append sb chunk <:+ acc ++ chunk := by
  have h1 : sb ++ chunk <:+ acc ++ chunk := by
    obtain ⟨t, ht⟩ := h
    exact ⟨t, by rw [← ht, List.append_assoc]⟩
  simp only [scrollback_append]
  split
  · exact (List.drop_suffix _ _).trans h1
  · exact h1

/-- Invariant of the reader fold: from any in-bound suffix state, the
scrollback stays in bound and stays a suffix of the accumulated stream. -/
theorem scrollback_foldl_inv (chunks : List (List Nat)) (sb acc : List Nat)
    (hlen : sb.length ≤ SCROLLBACK_MAX) (hsuf : sb <:+ acc) :
    (chunks.foldl scrollback_append sb).length ≤ SCROLLBACK_MAX ∧
      chunks.foldl scrollback_append sb <:+ acc ++ chunks.flatten := by
  induction chunks generalizing sb acc with
  | nil => simpa using ⟨hlen, hsuf⟩
  | cons c cs ih =>
    simp only [List.foldl_cons, List.flatten_cons]
    rw [← List.append_assoc]
    exact ih (scrollback_append sb c) (acc ++ c)
      (scrollback_append_length_le sb c hlen)
      (scrollback_append_suffix sb c acc hsuf)

/-- Reassembling a u32 from its four big-endian bytes. -/
theorem from_be32_be32 (n : Nat) (h : n < 4294967296) :
    from_be32 (n / 16777216 % 256) (n / 65536 % 256) (n / 256 % 256)
      (n % 256) = n := by
  unfold from_be32
  omega

/-- Unfolding equation of msg_decode on a buffer with a full length
prefix. -/
theorem msg_decode_cons (b0 b1 b2 b3 : Nat) (rest : List Nat) :
    msg_decode (b0 :: b1 :: b2 :: b3 :: rest) =
      (if from_be32 b0 b1 b2 b3 > MAX_MESSAGE_SIZE then
        .error (msgTooLarge (from_be32 b0 b1 b2 b3))
      else if rest.length < from_be32 b0 b1 b2 b3 then .ok none
      else .ok (some (rest.take (from_be32 b0 b1 b2 b3),
        rest.drop (from_be32 b0 b1 b2 b3)))) := rfl

/-- Unfolding equation of stream_decode on a buffer with a full length
prefix. -/
theorem stream_decode_cons (b0 b1 b2 b3 : Nat) (rest : List Nat) :
    stream_decode (b0 :: b1 :: b2 :: b3 :: rest) =
      (if from_be32 b0 b1 b2 b3 > MAX_MESSAGE_SIZE then
        .error "Message too large"
      else if from_be32 b0 b1 b2 b3 < 1 then
        .error "Stream frame must have at least 1 byte (type tag)"
      else if rest.length < from_be32 b0 b1 b2 b3 then .ok none
      else .ok (some (rest.headD 0,
        (rest.drop 1).take (from_be32 b0 b1 b2 b3 - 1),
        (rest.drop 1).drop (from_be32 b0 b1 b2 b3 - 1)))) := rfl

/-- Message-codec round trip for payloads within the 1 MiB ceiling. -/
theorem msg_roundtrip (payload : List Nat)
    (h : payload.length ≤ MAX_MESSAGE_SIZE) :
    msg_encode payload = .ok (be32 payload.length ++ payload) ∧
      msg_decode (be32 payload.length ++ payload) = .ok (some (payload, [])) := by
  have hceil : payload.length ≤ 1048576 := h
  constructor
  · unfold msg_encode
    rw [if_neg (by omega)]
  · show msg_decode
      (payload.length / 16777216 % 256 :: payload.length / 65536 % 256 ::
        payload.length / 256 % 256 :: payload.length % 256 :: payload) = _
    rw [msg_decode_cons, from_be32_be32 payload.length (by omega)]
    rw [if_neg (by simp only [MAX_MESSAGE_SIZE]; omega), if_neg (by omega)]
    simp

/-- Stream-codec round trip for frames within the 1 MiB ceiling. -/
theorem stream_roundtrip (tag : Nat) (payload : List Nat)
    (h : 1 + payload.length ≤ MAX_MESSAGE_SIZE) :
    stream_encode tag payload = .ok (be32 (1 + payload.length) ++ tag :: payload) ∧
      stream_decode (be32 (1 + payload.length) ++ tag :: payload) =
        .ok (some (tag, payload, [])) := by
  have hceil : 1 + payload.length ≤ 1048576 := h
  constructor
  · unfold stream_encode
    rw [if_neg (by omega)]
  · show stream_decode
      ((1 + payload.length) / 16777216 % 256 :: (1 + payload.length) / 65536 % 256 ::
        (1 + payload.length) / 256 % 256 :: (1 + payload.length) % 256 ::
        tag :: payload) = _
    rw [stream_decode_cons, from_be32_be32 (1 + payload.length) (by omega)]
    rw [if_neg (by simp only [MAX_MESSAGE_SIZE]; omega), if_neg (by omega),
      if_neg (by simp; omega)]
    simp

/-- Every id in the list is below the id spawn_shell picks next. -/
theorem id_lt_next_pty_id (ptys : List PtyState) (p : PtyState)
    (hp : p ∈ ptys) : p.id < next_pty_id ptys := by
  unfold next_pty_id
  have hmem : p.id ∈ ptys.map (fun q => q.id) := List.mem_map_of_mem _ hp
  cases hmax : (ptys.map (fun q => q.id)).max? with
  | none =>
    rw [List.max?_eq_none_iff] at hmax
    simp [hmax] at hmem
  | some m =>
    have := (List.max?_eq_some_iff'.mp hmax).2 _ hmem
    show p.id < m + 1
    omega

/-- Looking up a freshly inserted key that was absent before finds the
inserted session. -/
theorem lookup_insert_of_not_contains (reg : Registry) (k : String) (s : Session)
    (h : containsKey reg k = false) :
    lookupSession (insertSession reg k s) k = some s := by
  induction reg with
  | nil => simp [lookupSession, insertSession, List.find?]
  | cons q rest ih =>
    simp only [containsKey, List.any_cons, Bool.or_eq_false_iff] at h
    simp only [insertSession, lookupSession, List.cons_append, List.find?]
    rw [h.1]
    exact ih h.2

/-- updateFirstById preserves the length of the list. -/
theorem length_updateFirstById (l : List PtyState) (i : Nat)
    (f : PtyState → PtyState) :
    (updateFirstById l i f).length = l.length := by
  induction l with
  | nil => rfl
  | cons p rest ih =>
    simp only [updateFirstById]
    split
    · simp
    · simp [ih]

/-- updateFirstById rewrites the first match that find? locates. -/
theorem find?_updateFirstById (l : List PtyState) (i : Nat)
    (f : PtyState → PtyState) (pty : PtyState)
    (hfind : l.find? (fun p => p.id == i) = some pty)
    (hid : (f pty).id = pty.id) :
    (updateFirstById l i f).find? (fun p => p.id == i) = some (f pty) := by
  induction l with
  | nil => simp [List.find?] at hfind
  | cons p rest ih =>
    by_cases hp : (p.id == i) = true
    · simp only [List.find?, hp] at hfind
      cases hfind
      simp only [updateFirstById, hp, if_true]
      have hfp : ((f pty).id == i) = true := by
        rw [hid]
        exact hp
      simp [List.find?, hfp]
    · have hp2 : (p.id == i) = false := by simpa using hp
      simp only [List.find?, hp2] at hfind
      simp only [updateFirstById, hp2, Bool.false_eq_true, if_false]
      simp only [List.find?, hp2]
      exact ih hfind

/-- updateFirstById leaves every position whose PTY id differs
untouched. -/
theorem getD_updateFirstById (l : List PtyState) (i : Nat)
    (f : PtyState → PtyState) (k : Nat)
    (hne : (l.getD k default).id ≠ i) :
    (updateFirstById l i f).getD k default = l.getD k default := by
  induction l generalizing k with
  | nil => rfl
  | cons p rest ih =>
    simp only [updateFirstById]
    by_cases hp : (p.id == i) = true
    · rw [if_pos hp]
      cases k with
      | zero =>
        exfalso
        exact hne (by simpa using hp)
      | succ j => rfl
    · rw [if_neg hp]
      cases k with
      | zero => rfl
      | succ j =>
        simpa using ih j (by simpa using hne)

/-- The agent PtyState of sessA, as built by create_session. -/
def agentPtyA : PtyState :=
  { id := 0, role := .agent, command := "claude", pid := some 100, masterFd := 5,
    outputTx := some 1, scrollback := some (2, []), autoRestart := false }

/-- Successful create_session builds the session for the derived name and
stores it under that name. -/
theorem create_session_success (reg : Registry) (name? : Option String)
    (workspace : String) (cfg : Coopfile) (ns : NsResult) (now txId sbId : Nat)
    (hname : containsKey reg (derivedName name? workspace) = false)
    (hws : findByWorkspace reg workspace = none) :
    ∃ sess,
      create_session reg name? workspace cfg true (some ns) now txId sbId =
        (Response.okWith { session := some (derivedName name? workspace),
                           pid := some ns.childPid },
          insertSession reg (derivedName name? workspace) sess) ∧
      sess.name = derivedName name? workspace ∧ sess.workspace = workspace := by
  refine ⟨{ name := derivedName name? workspace,
            workspace := workspace,
            namespacePid := ns.childPid,
            created := now,
            ptys := [{ id := 0,
                       role := .agent,
                       command := cfg.agentCommand.getD "claude",
                       pid := some ns.childPid,
                       masterFd := ns.ptyMasterFd,
                       outputTx := some txId,
                       scrollback := some (sbId, []),
                       autoRestart := cfg.autoRestart }],
            localClients := 0,
            webClients := 0,
            defaultShell := cfg.shellCommand,
            sandboxHome := "/home/" ++ cfg.sandboxUser,
            sandboxUser := cfg.sandboxUser,
            userEnv := cfg.env,
            sandboxWorkspace := cfg.workspacePath,
            restartDelayMs := cfg.restartDelayMs,
            nsUserFd := ns.nsUserFd,
            nsMntFd := ns.nsMntFd,
            nsUtsFd := ns.nsUtsFd,
            nsNetFd := ns.nsNetFd,
            nsRootFd := ns.nsRootFd }, ?_, rfl, rfl⟩
  unfold create_session
  simp [hname, hws]

/-! ## The claims -/

/-- C1, counterexample: sessA holds exactly one PTY, the agent (id 0,
auto-restart off, recorded pid 100).  When its reader signals EOF and the
watcher still sees the expected pid, the exit watcher broadcasts no
banner and removes the PTY from the session: the session is left with an
empty PTY list, contradicting the claimed agent-exited banner and the
claimed survival of the PTY. -/
theorem c1_counterexample :
    sessA.ptys.map (fun p => (p.id, p.role, p.autoRestart)) =
      [(0, PtyRole.agent, false)] ∧
    watcher_on_exit sessA 0 100 false 1000 =
      ({ sessA with ptys := [] }, [], false) := by
  decide

/-- C1, amended: when a PTY reader signals EOF, the recorded pid still
equals the pid the watcher expected, and auto-restart is disabled, the
watcher removes the PTY from the session via kill_pty regardless of its
role (Agent included) and broadcasts nothing. -/
theorem c1_watcher_removes_pty (s : Session) (ptyId expectedPid delayMs : Nat)
    (pty : PtyState)
    (hfind : s.ptys.find? (fun p => p.id == ptyId) = some pty)
    (hpid : pty.pid = some expectedPid) :
    watcher_on_exit s ptyId expectedPid false delayMs =
      ({ s with ptys := s.ptys.eraseP (fun p => p.id == ptyId) }, [], false) := by
  have hg : get_pty_pid s ptyId = some expectedPid := by
    unfold get_pty_pid
    rw [hfind]
    simpa using hpid
  unfold watcher_on_exit
  rw [if_neg (by simp [hg]), if_neg (by simp)]
  unfold kill_pty
  rw [hfind]

/-- C1, witness: the amended statement evaluated on sessA. -/
theorem c1_witness :
    watcher_on_exit sessA 0 100 false 77 =
      ({ sessA with ptys := sessA.ptys.eraseP (fun p => p.id == 0) }, [], false) :=
  c1_watcher_removes_pty sessA 0 100 77 agentPtyA (by decide) (by decide)

/-- C2, counterexample: c2sess (reachable by two forced Shell spawns and
a Kill-PTY of id 1) holds PTYs with ids 0 and 2.  Attach with pty = 2 is
refused with PTY_NOT_FOUND although a PTY with id 2 exists, and attach
with pty = 1 succeeds although no PTY with id 1 exists: the response is
not ok exactly when the requested id exists. -/
theorem c2_counterexample :
    (c2sess.ptys.map fun p => p.id) = [0, 2] ∧
    attach c2reg "s" 2 =
      .ok (Response.err ERR_PTY_NOT_FOUND "PTY 2 not found in session s") ∧
    attach c2reg "s" 1 = .ok Response.mkOk := by
  decide

/-- C2, amended: for an Attach request that resolves to an existing
session, the response is ok exactly when the requested pty value is
less than the number of PTYs currently in the session's PTY list (the
check is positional, not a lookup of the PTY id); otherwise the response
is an error with code PTY_NOT_FOUND.  attach holds only the read lock, so
the registry is unchanged either way. -/
theorem c2_attach_positional (reg : Registry) (nameOrPath : String)
    (s : Session) (pty : Nat)
    (hres : resolve_session reg nameOrPath = .ok s) :
    attach reg nameOrPath pty =
      .ok (if pty < s.ptys.length then Response.mkOk
        else Response.err ERR_PTY_NOT_FOUND
          ("PTY " ++ Nat.repr pty ++ " not found in session " ++ s.name)) := by
  unfold attach
  simp only [hres]
  by_cases h : s.ptys.length ≤ pty
  · rw [if_pos h, if_neg (by omega)]
  · rw [if_neg h, if_pos (by omega)]

/-- C2, witness: the amended statement evaluated on c2reg. -/
theorem c2_witness :
    attach c2reg "s" 1 =
      .ok (if 1 < c2sess.ptys.length then Response.mkOk
        else Response.err ERR_PTY_NOT_FOUND
          ("PTY " ++ Nat.repr 1 ++ " not found in session " ++ c2sess.name)) :=
  c2_attach_positional c2reg "s" c2sess 1 (by decide)

/-- C3, counterexample: starting from sessA (agent id 0), two forced
Shell spawns are assigned ids 1 and 2; after Kill-PTY of id 2, the next
forced Shell spawn is assigned id 2 again - the id of a previously
created PTY of the same session is reused. -/
theorem c3_counterexample :
    (spawn_shell aliveAll sessA (some "sh") true 101 6 20 21).2.data.pty = some 1 ∧
    (spawn_shell aliveAll c3s1 (some "sh") true 102 7 22 23).2.data.pty = some 2 ∧
    kill_pty c3s2 2 = .ok (c3s3, [7], [102]) ∧
    (spawn_shell aliveAll c3s3 (some "sh") true 103 8 24 25).2.data.pty = some 2 := by
  decide

/-- C3, amended: the id assigned to a newly created shell PTY is one
greater than the maximum id currently present after pruning (1 when none
is present), hence strictly greater than, and distinct from, the id of
every PTY currently in the session; ids of PTYs that were previously
removed by Kill-PTY or pruning may be assigned again. -/
theorem c3_spawn_id_exceeds_live (alive : Nat → Bool) (s : Session)
    (command : Option String) (newPid : Nat) (newFd : Int) (txId sbId : Nat) :
    ∃ newPty : PtyState,
      (spawn_shell alive s command true newPid newFd txId sbId).1.ptys =
        prune_dead_ptys alive s.ptys ++ [newPty] ∧
      newPty.id = next_pty_id (prune_dead_ptys alive s.ptys) ∧
      (spawn_shell alive s command true newPid newFd txId sbId).2.data.pty =
        some newPty.id ∧
      ∀ p ∈ prune_dead_ptys alive s.ptys, p.id < newPty.id := by
  refine ⟨{ id := next_pty_id (prune_dead_ptys alive s.ptys),
            role := .shell,
            command := command.getD s.defaultShell,
            pid := some newPid,
            masterFd := newFd,
            outputTx := some txId,
            scrollback := some (sbId, []),
            autoRestart := false },
    rfl, rfl, rfl, ?_⟩
  intro p hp
  exact id_lt_next_pty_id _ p hp

/-- C4: a Create request whose derived name or whose workspace collides
with an existing session is rejected with SESSION_EXISTS, the response
data carries the name under which the existing session is stored (name
collision) or the existing session's name field (workspace collision),
and the registry is left completely unchanged. -/
theorem c4_create_rejects_collision (reg : Registry) (name? : Option String)
    (workspace : String) (cfg : Coopfile) (rootfsExists : Bool)
    (nsResult : Option NsResult) (now freshTxId freshSbId : Nat)
    (h : containsKey reg (derivedName name? workspace) = true ∨
      ∃ p ∈ reg, p.2.workspace = workspace) :
    (create_session reg name? workspace cfg rootfsExists nsResult now
      freshTxId freshSbId).1.ok = false ∧
    (create_session reg name? workspace cfg rootfsExists nsResult now
      freshTxId freshSbId).1.error = some ERR_SESSION_EXISTS ∧
    (create_session reg name? workspace cfg rootfsExists nsResult now
      freshTxId freshSbId).2 = reg ∧
    ((containsKey reg (derivedName name? workspace) = true ∧
        (create_session reg name? workspace cfg rootfsExists nsResult now
          freshTxId freshSbId).1.data.session =
          some (derivedName name? workspace)) ∨
      ∃ p ∈ reg, p.2.workspace = workspace ∧
        (create_session reg name? workspace cfg rootfsExists nsResult now
          freshTxId freshSbId).1.data.session = some p.2.name) := by
  by_cases hk : containsKey reg (derivedName name? workspace) = true
  · have he : create_session reg name? workspace cfg rootfsExists nsResult now
        freshTxId freshSbId =
        (Response.errWith ERR_SESSION_EXISTS
          ("Session " ++ derivedName name? workspace ++ " already exists")
          { session := some (derivedName name? workspace) }, reg) := by
      unfold create_session
      simp [hk]
    rw [he]
    exact ⟨rfl, rfl, rfl, Or.inl ⟨hk, rfl⟩⟩
  · rcases h with h | hws
    · exact absurd h hk
    · obtain ⟨p, hpmem, hpw⟩ := hws
      have hfs : (findByWorkspace reg workspace).isSome = true := by
        unfold findByWorkspace
        rw [List.find?_isSome]
        exact ⟨p.2, List.mem_map_of_mem _ hpmem, by simp [hpw]⟩
      obtain ⟨q, hq⟩ := Option.isSome_iff_exists.mp hfs
      have hqw : q.workspace = workspace := by
        simpa using List.find?_some hq
      obtain ⟨pq, hpqmem, hpq⟩ := List.mem_map.mp (List.mem_of_find?_eq_some hq)
      have hk2 : containsKey reg (derivedName name? workspace) = false := by
        simpa using hk
      have he : create_session reg name? workspace cfg rootfsExists nsResult now
          freshTxId freshSbId =
          (Response.errWith ERR_SESSION_EXISTS
            ("Session " ++ q.name ++ " already exists for this workspace")
            { session := some q.name }, reg) := by
        unfold create_session
        simp [hk2, hq]
      rw [he]
      refine ⟨rfl, rfl, rfl, Or.inr ⟨pq, hpqmem, ?_, ?_⟩⟩
      · rw [hpq]
        exact hqw
      · rw [hpq]
        rfl

/-- C4, witness: the collision statement evaluated on regA, which already
holds session s. -/
theorem c4_witness :
    (create_session regA (some "s") "/w2" testCfg true (some testNs) 1 3
      4).1.ok = false ∧
    (create_session regA (some "s") "/w2" testCfg true (some testNs) 1 3
      4).1.error = some ERR_SESSION_EXISTS ∧
    (create_session regA (some "s") "/w2" testCfg true (some testNs) 1 3
      4).2 = regA ∧
    ((containsKey regA (derivedName (some "s") "/w2") = true ∧
        (create_session regA (some "s") "/w2" testCfg true (some testNs) 1 3
          4).1.data.session = some (derivedName (some "s") "/w2")) ∨
      ∃ p ∈ regA, p.2.workspace = "/w2" ∧
        (create_session regA (some "s") "/w2" testCfg true (some testNs) 1 3
          4).1.data.session = some p.2.name) :=
  c4_create_rejects_collision regA (some "s") "/w2" testCfg true (some testNs)
    1 3 4 (Or.inl (by decide))

/-- C5: after the PTY reader has consumed any first k chunks of its
input, the scrollback length is at most SCROLLBACK_MAX (256 KiB) and its
contents are a suffix of the concatenation of all bytes read so far
(trimming drops the oldest bytes first). -/
theorem c5_scrollback_bound_and_suffix (chunks : List (List Nat)) (k : Nat) :
    (scrollback_run (chunks.take k)).length ≤ SCROLLBACK_MAX ∧
      scrollback_run (chunks.take k) <:+ (chunks.take k).flatten := by
  have h := scrollback_foldl_inv (chunks.take k) [] [] (by simp)
    List.nil_suffix
  simpa [scrollback_run] using h

/-- C6: a successful restart of PTY p closes the old master fd exactly
once and swaps the cell to the new fd; the restarted PTY keeps its id,
role, broadcast-channel object and scrollback object, records the new
pid; every other position of the PTY list is untouched; and the session
init pid is updated exactly when p is PTY 0. -/
theorem c6_restart_preserves_identity (cfg : Coopfile) (s : Session)
    (ptyId newPid : Nat) (newFd : Int) (pty : PtyState)
    (hfind : s.ptys.find? (fun p => p.id == ptyId) = some pty)
    (htx : pty.outputTx.isSome = true) (hsb : pty.scrollback.isSome = true)
    (hfd : 0 ≤ pty.masterFd) :
    ∃ s2 closed sigs,
      restart_pty cfg s ptyId newPid newFd =
        .ok (s2, Response.okWith { pid := some newPid, pty := some ptyId },
          closed, sigs) ∧
      closed = [pty.masterFd] ∧
      (∃ q, s2.ptys.find? (fun p => p.id == ptyId) = some q ∧
        q.id = pty.id ∧ q.role = pty.role ∧ q.outputTx = pty.outputTx ∧
        q.scrollback = pty.scrollback ∧ q.masterFd = newFd ∧
        q.pid = some newPid) ∧
      s2.ptys.length = s.ptys.length ∧
      (∀ k, (s.ptys.getD k default).id ≠ ptyId →
        s2.ptys.getD k default = s.ptys.getD k default) ∧
      s2.namespacePid = (if ptyId == 0 then newPid else s.namespacePid) := by
  obtain ⟨tx, htx2⟩ := Option.isSome_iff_exists.mp htx
  obtain ⟨sb, hsb2⟩ := Option.isSome_iff_exists.mp hsb
  refine ⟨{ s with
      defaultShell := cfg.shellCommand,
      userEnv := cfg.env,
      restartDelayMs := cfg.restartDelayMs,
      ptys := updateFirstById s.ptys ptyId (fun p =>
        { p with
          pid := some newPid,
          command := if ptyId == 0 then cfg.agentCommand.getD "claude"
                     else pty.command,
          autoRestart := if ptyId == 0 then cfg.autoRestart else pty.autoRestart,
          masterFd := newFd }),
      namespacePid := if ptyId == 0 then newPid else s.namespacePid },
    [pty.masterFd],
    (match pty.pid with | some p => [p] | none => []),
    ?_, rfl, ?_, ?_, ?_, rfl⟩
  · show restart_pty cfg s ptyId newPid newFd = _
    simp only [restart_pty, hfind, htx2, hsb2]
    rw [if_pos hfd]
  · exact ⟨_, find?_updateFirstById s.ptys ptyId _ pty hfind rfl,
      rfl, rfl, rfl, rfl, rfl, rfl⟩
  · exact length_updateFirstById s.ptys ptyId _
  · intro k hk
    exact getD_updateFirstById s.ptys ptyId _ k hk

/-- C6, witness: the restart statement evaluated on sessA and its agent
PTY. -/
theorem c6_witness :
    ∃ s2 closed sigs,
      restart_pty testCfg sessA 0 200 7 =
        .ok (s2, Response.okWith { pid := some 200, pty := some 0 },
          closed, sigs) ∧
      closed = [agentPtyA.masterFd] ∧
      (∃ q, s2.ptys.find? (fun p => p.id == 0) = some q ∧
        q.id = agentPtyA.id ∧ q.role = agentPtyA.role ∧
        q.outputTx = agentPtyA.outputTx ∧ q.scrollback = agentPtyA.scrollback ∧
        q.masterFd = 7 ∧ q.pid = some 200) ∧
      s2.ptys.length = sessA.ptys.length ∧
      (∀ k, (sessA.ptys.getD k default).id ≠ 0 →
        s2.ptys.getD k default = sessA.ptys.getD k default) ∧
      s2.namespacePid = (if (0 : Nat) == 0 then 200 else sessA.namespacePid) :=
  c6_restart_preserves_identity testCfg sessA 0 200 7 agentPtyA (by decide)
    (by decide) (by decide) (by decide)

/-- C7: encode-then-decode is the identity for both codecs: any payload
within the 1 MiB ceiling round-trips through the message codec, and any
tag byte and payload accepted by the stream codec round-trip through it,
each leaving an empty buffer behind. -/
theorem c7_codec_roundtrip (payload : List Nat) (tag : Nat) (sp : List Nat)
    (hp : payload.length ≤ MAX_MESSAGE_SIZE) (htag : tag < 256)
    (hsp : 1 + sp.length ≤ MAX_MESSAGE_SIZE) :
    (msg_encode payload = .ok (be32 payload.length ++ payload) ∧
      msg_decode (be32 payload.length ++ payload) = .ok (some (payload, []))) ∧
    (stream_encode tag sp = .ok (be32 (1 + sp.length) ++ tag :: sp) ∧
      stream_decode (be32 (1 + sp.length) ++ tag :: sp) =
        .ok (some (tag, sp, []))) :=
  ⟨msg_roundtrip payload hp, stream_roundtrip tag sp hsp⟩

/-- C7, witness: the round trip evaluated on a three-byte message payload
and a one-byte PTY-data stream frame. -/
theorem c7_witness :
    (msg_encode [1, 2, 3] = .ok (be32 ([1, 2, 3] : List Nat).length ++ [1, 2, 3]) ∧
      msg_decode (be32 ([1, 2, 3] : List Nat).length ++ [1, 2, 3]) =
        .ok (some ([1, 2, 3], []))) ∧
    (stream_encode 0 [104] = .ok (be32 (1 + ([104] : List Nat).length) ++ 0 :: [104]) ∧
      stream_decode (be32 (1 + ([104] : List Nat).length) ++ 0 :: [104]) =
        .ok (some (0, [104], []))) :=
  c7_codec_roundtrip [1, 2, 3] 0 [104] (by decide) (by decide) (by decide)

/-- C8, counterexample: a frame whose 4-byte prefix declares 2 MiB makes
decode fail with the io::Error message shown (so the decode part of the
claim holds), and handle_client then drops the connection without
sending anything: no response carrying the MESSAGE_TOO_LARGE code ever
reaches the client, and the io::Error text is not that code either. -/
theorem c8_counterexample :
    msg_decode [0, 32, 0, 0] =
      .error "Message too large: 2097152 bytes (max 1048576)" ∧
    handle_client_on_decode_error
      "Message too large: 2097152 bytes (max 1048576)" = (none, false) ∧
    "Message too large: 2097152 bytes (max 1048576)" ≠ ERR_MESSAGE_TOO_LARGE := by
  decide

/-- C8, amended: for every incoming frame whose 4-byte big-endian length
prefix declares more than 1 MiB, decode returns a protocol error whose
message is the io::Error text Message too large (not the
MESSAGE_TOO_LARGE code), and handle_client closes the connection without
sending any response envelope to the client. -/
theorem c8_oversized_frame_closes (b0 b1 b2 b3 : Nat) (rest : List Nat)
    (h : from_be32 b0 b1 b2 b3 > MAX_MESSAGE_SIZE) :
    msg_decode (b0 :: b1 :: b2 :: b3 :: rest) =
      .error (msgTooLarge (from_be32 b0 b1 b2 b3)) ∧
    handle_client_on_decode_error (msgTooLarge (from_be32 b0 b1 b2 b3)) =
      (none, false) := by
  refine ⟨?_, rfl⟩
  rw [msg_decode_cons, if_pos h]

/-- C8, witness: the amended statement evaluated on the 2 MiB prefix. -/
theorem c8_witness :
    msg_decode [0, 32, 0, 0] = .error (msgTooLarge (from_be32 0 32 0 0)) ∧
    handle_client_on_decode_error (msgTooLarge (from_be32 0 32 0 0)) =
      (none, false) :=
  c8_oversized_frame_closes 0 32 0 0 [] (by decide)

/-- C9: the PTY 0 scrollback of c9sess holds the bytes of hi, which
contain no newline, so fewer newlines than tail_lines = 1.  get_logs
answers ok but with log_data the base64 of the empty byte string, not
the base64 of the whole scrollback (aGk=): the backward scan leaves
start at data.len() when fewer than N newlines exist, selecting nothing
instead of everything. -/
theorem c9_tail_underflow_returns_empty :
    c9sess.ptys.map (fun p => (p.id, p.scrollback)) =
      [(0, some (2, [104, 105]))] ∧
    get_logs c9reg "s" 0 (some 1) =
      .ok (Response.okWith { logData := some "" }) ∧
    base64Encode [104, 105] = "aGk=" ∧
    ("" : String) ≠ "aGk=" := by
  decide

/-- C10: when Create has no session name, the name is derived from the
workspace as its final path component (workspace /a/b yields b); the
derived name is the one used for the name-collision check (the behaviour
equals a Create that passes the derived name explicitly), is stored as
the registry key with the session's name field, and is returned in the
response. -/
theorem c10_create_derives_name (reg : Registry) (workspace : String)
    (cfg : Coopfile) (ns : NsResult) (now txId sbId : Nat)
    (hname : containsKey reg (fileName workspace) = false)
    (hws : findByWorkspace reg workspace = none) :
    (∀ (rootfsExists : Bool) (nsResult : Option NsResult),
      create_session reg none workspace cfg rootfsExists nsResult now txId sbId =
        create_session reg (some (fileName workspace)) workspace cfg
          rootfsExists nsResult now txId sbId) ∧
    fileName "/a/b" = "b" ∧
    (create_session reg none workspace cfg true (some ns) now txId sbId).1.ok =
      true ∧
    (create_session reg none workspace cfg true (some ns) now txId
      sbId).1.data.session = some (fileName workspace) ∧
    ∃ sess,
      lookupSession
        (create_session reg none workspace cfg true (some ns) now txId sbId).2
        (fileName workspace) = some sess ∧
      sess.name = fileName workspace := by
  obtain ⟨sess, he, hn, _⟩ :=
    create_session_success reg none workspace cfg ns now txId sbId hname hws
  refine ⟨fun rootfsExists nsResult => rfl, by decide, ?_, ?_, sess, ?_, hn⟩
  · rw [he]
    rfl
  · rw [he]
    rfl
  · rw [he]
    exact lookup_insert_of_not_contains reg (fileName workspace) sess hname

/-- C10, witness: the derivation statement evaluated on the empty
registry and workspace /a/b. -/
theorem c10_witness :
    (∀ (rootfsExists : Bool) (nsResult : Option NsResult),
      create_session [] none "/a/b" testCfg rootfsExists nsResult 0 5 6 =
        create_session [] (some (fileName "/a/b")) "/a/b" testCfg
          rootfsExists nsResult 0 5 6) ∧
    fileName "/a/b" = "b" ∧
    (create_session [] none "/a/b" testCfg true (some testNs) 0 5 6).1.ok =
      true ∧
    (create_session [] none "/a/b" testCfg true (some testNs) 0 5
      6).1.data.session = some (fileName "/a/b") ∧
    ∃ sess,
      lookupSession
        (create_session [] none "/a/b" testCfg true (some testNs) 0 5 6).2
        (fileName "/a/b") = some sess ∧
      sess.name = fileName "/a/b" :=
  c10_create_derives_name [] "/a/b" testCfg testNs 0 5 6 (by decide) (by decide)

end Coop
